import Mathlib

/-!
Verification of the pythondialog core module (`dialog.py`, version 2.13.1)
against its natural-language specification.

The definitions below are a shallow embedding of the relevant parts of
`dialog.py`.  Python strings are modelled by Lean `String` (with the
character list `String.data` used where splitting has to be reasoned
about), Python exceptions by the inductive `PyError`, and fallible code by
`Except` or by an explicit `(Option PyError) × state` pair for the
stateful gauge methods.  Exception *message* strings are abstracted: each
`PyError` constructor keeps exactly the data that the source interpolates
into the message (e.g. the signal number), not the surrounding prose.
-/

namespace Pythondialog

/-- Model of the exceptions that the embedded code paths can raise.
The first group mirrors the module's own exception hierarchy rooted at
`dialog.error` (dialog.py lines 112-229); the second group models Python
builtin exceptions, which are *not* part of that hierarchy. -/
inductive PyError where
  | badPythonDialogUsage
  | pythonDialogBug
  | probablyPythonBug
  | dialogTerminatedBySignal (signum : Nat)
  | dialogError (exitCode : Int)
  | errorBeforeExec
  | keyError (key : String)
  | attributeError (attr : String)
  | valueError
  | indexError
  deriving DecidableEq

/-- `isinstance(e, BadPythonDialogUsage)`: true exactly for the usage-error
kind of the module's exception taxonomy. -/
def PyError.isBadUsage : PyError → Bool
  | .badPythonDialogUsage => true
  | _ => false

/-- `issubclass(type(e), dialog.error)`: whether the exception belongs to the
module's own exception hierarchy.  Python builtins such as `KeyError`,
`AttributeError`, `ValueError` and `IndexError` do not. -/
def PyError.inHierarchy : PyError → Bool
  | .keyError _ => false
  | .attributeError _ => false
  | .valueError => false
  | .indexError => false
  | _ => true

/-- Decidable equality for `Except`, so that concrete runs of the
embedded fallible functions can be checked by `decide`. -/
instance {ε α : Type} [DecidableEq ε] [DecidableEq α] :
    DecidableEq (Except ε α) := fun a b =>
  match a, b with
  | .ok x, .ok y =>
    if h : x = y then isTrue (by rw [h]) else isFalse (by simpa using h)
  | .error x, .error y =>
    if h : x = y then isTrue (by rw [h]) else isFalse (by simpa using h)
  | .ok _, .error _ => isFalse (by simp)
  | .error _, .ok _ => isFalse (by simp)

/-- Model of the Python values relevant to the embedded code: booleans,
integers, strings, and representatives of any other object (a float, or
`None`).  `pyFloat` stands for an arbitrary float; its numeric value is
irrelevant to every embedded code path. -/
inductive PyVal where
  | pyBool (b : Bool)
  | pyInt (n : Int)
  | pyStr (s : String)
  | pyFloat
  | pyNone
  deriving DecidableEq

/-- `isinstance(v, int)`.  In Python, `bool` is a subclass of `int`, so
`isinstance(True, int)` is `True`. -/
def pyIsInt : PyVal → Bool
  | .pyBool _ => true
  | .pyInt _ => true
  | _ => false

/-- `str(v)` / `"{0}".format(v)` for the modelled values. -/
def pyStrOfVal : PyVal → String
  | .pyBool b => if b then "True" else "False"
  | .pyInt n => toString n
  | .pyStr s => s
  | .pyFloat => "<float>"
  | .pyNone => "None"

/-- `small.isPrefixOf big` on character lists, written out so that the
embedding of `str.startswith` is self-contained. -/
def chStartsWith : List Char → List Char → Bool
  | [], _ => true
  | _ :: _, [] => false
  | a :: as, b :: bs => a = b && chStartsWith as bs

/-- `s.startswith(pat)` for Python strings. -/
def pyStartsWith (pat : String) (s : String) : Bool :=
  chStartsWith pat.data s.data

/-- `s.split(sep)` (unbounded) on character lists.  Python's `str.split`
with an explicit separator does not collapse consecutive separators and
maps the empty string to `[""]`. -/
def chSplit (sep : Char) : List Char → List (List Char)
  | [] => [[]]
  | c :: rest =>
    if c = sep then [] :: chSplit sep rest
    else
      match chSplit sep rest with
      | p :: ps => (c :: p) :: ps
      | [] => [[c]]

/-- `s.split(sep, maxsplit)` on character lists: at most `maxsplit` splits
are performed, the remainder staying in one final chunk. -/
def chSplitLimit (sep : Char) : Nat → List Char → List (List Char)
  | 0, l => [l]
  | _ + 1, [] => [[]]
  | n + 1, c :: rest =>
    if c = sep then [] :: chSplitLimit sep n rest
    else
      match chSplitLimit sep (n + 1) rest with
      | p :: ps => (c :: p) :: ps
      | [] => [[c]]

/-- `s.split(sep)` lifted to `String`. -/
def pySplit (sep : Char) (s : String) : List String :=
  (chSplit sep s.data).map String.mk

/-- `s.split(sep, maxsplit)` lifted to `String`. -/
def pySplitLimit (sep : Char) (maxsplit : Nat) (s : String) : List String :=
  (chSplitLimit sep maxsplit s.data).map String.mk

/-- ASCII lowercasing of a string, character by character.  This is what
`re.IGNORECASE` amounts to for a pattern made of ASCII letters (no
non-ASCII character case-folds to `o`, `n` or `f`). -/
def pyLower (s : String) : String :=
  String.mk (s.data.map Char.toLower)

/-- Model of `re.compile(lit + "$", re.IGNORECASE).match(s)` viewed as a
boolean, for a literal pattern `lit` of lowercase ASCII letters
(dialog.py lines 244-245: `_on_rec`, `_off_rec`).  `re.match` anchors at
the start of the string, and `$` matches either at the end of the string
or just before a newline that ends the string, so the regex accepts the
case variations of `lit` optionally followed by one trailing newline. -/
def reMatchAnchoredDollarCI (lit : String) (s : String) : Bool :=
  pyLower s == lit || pyLower s == lit ++ "\n"

/-- Embedding of `_to_onoff` (dialog.py lines 451-476).  Booleans and
integers are mapped through Python truthiness; strings are tried against
`_on_rec` then `_off_rec`; everything else falls through to
`BadPythonDialogUsage`. -/
def toOnOff (val : PyVal) : Except PyError String :=
  match val with
  | .pyBool b => .ok (if b then "on" else "off")
  | .pyInt n => .ok (if n ≠ 0 then "on" else "off")
  | .pyStr s =>
    if reMatchAnchoredDollarCI "on" s then .ok "on"
    else if reMatchAnchoredDollarCI "off" s then .ok "off"
    else .error .badPythonDialogUsage
  | _ => .error .badPythonDialogUsage

/-- Embedding of `_dash_escape` (dialog.py lines 263-283): every element
starting with `--` is preceded by an inserted `--` element. -/
def dashEscape : List String → List String
  | [] => []
  | arg :: rest =>
    (if pyStartsWith "--" arg then ["--", arg] else [arg]) ++ dashEscape rest

/-- Embedding of `_dash_escape_nf` (dialog.py lines 287-297), also exposed
as the classmethod `Dialog.dash_escape_nf` (lines 788-801), which merely
delegates to it: an empty sequence raises `PythonDialogBug`; otherwise the
first element is kept unchanged and the rest is dash-escaped. -/
def dashEscapeNf (args : List String) : Except PyError (List String) :=
  match args with
  | [] => .error .pythonDialogBug
  | first :: rest => .ok (first :: dashEscape rest)

/-- The calls `_dash_escape_nf((opt, v, ...))` inside `_common_args_syntax`
always receive a non-empty literal tuple, so they cannot hit the
`PythonDialogBug` branch; this total function is that non-empty case. -/
def dashEscapeNfNE (first : String) (rest : List String) : List String :=
  first :: dashEscape rest

/-- Model of the values that callers put into the common-options keyword
mapping: booleans (or anything tested for truthiness by
`_simple_option`), strings, numbers, and the `(y, x)` coordinate pair of
the `begin` option. -/
inductive OptVal where
  | boolV (b : Bool)
  | strV (s : String)
  | numV (n : Int)
  | pairV (y x : Int)
  deriving DecidableEq

/-- Python truthiness of an `OptVal`, as tested by `_simple_option`'s
`if enable:` (dialog.py lines 299-305).  A 2-tuple is always truthy. -/
def optTruthy : OptVal → Bool
  | .boolV b => b
  | .strV s => s ≠ ""
  | .numV n => n ≠ 0
  | .pairV _ _ => true

/-- `str(v)` for an `OptVal` (used by the table entries that stringify
their value, e.g. `str(ratio)`). -/
def optStr : OptVal → String
  | .boolV b => if b then "True" else "False"
  | .strV s => s
  | .numV n => toString n
  | .pairV y x => "(" ++ toString y ++ ", " ++ toString x ++ ")"

/-- The value of a string-typed table entry, passed to dialog unconverted.
The source hands the object itself to `execve`, which requires it to
already be a string; non-string values are out of the modelled scope and
are rendered with `str` here. -/
def optRaw : OptVal → String
  | .strV s => s
  | v => optStr v

/-- The three shapes of entry found in `_common_args_syntax`
(dialog.py lines 313-388): a no-argument flag emitted when the value is
truthy (`_simple_option`), an option followed by its value either
stringified (`str(v)`) or passed through raw, and the special `begin`
entry taking a `(y, x)` coordinate pair. -/
inductive ArgRule where
  | flag (opt : String)
  | strValue (opt : String)
  | rawValue (opt : String)
  | beginCoords
  deriving DecidableEq

/-- Applying one table entry to its value.  The value-taking entries go
through `_dash_escape_nf` on a non-empty tuple, i.e. the option token is
kept and the value tokens are dash-escaped. -/
def applyRule : ArgRule → OptVal → List String
  | .flag opt, v => if optTruthy v then [opt] else []
  | .strValue opt, v => dashEscapeNfNE opt [optStr v]
  | .rawValue opt, v => dashEscapeNfNE opt [optRaw v]
  | .beginCoords, v =>
    match v with
    | .pairV y x => dashEscapeNfNE "--begin" [toString y, toString x]
    | w => dashEscapeNfNE "--begin" [optStr w, optStr w]

/-- The fixed per-option rule table `_common_args_syntax`
(dialog.py lines 313-388), as the partial lookup function that the Python
dictionary is.  `none` models a `KeyError` on subscripting. -/
def commonArgsSyntax : String → Option ArgRule
  | "ascii_lines" => some (.flag "--ascii-lines")
  | "aspect" => some (.strValue "--aspect")
  | "backtitle" => some (.rawValue "--backtitle")
  | "beep" => some (.flag "--beep")
  | "beep_after" => some (.flag "--beep-after")
  | "begin" => some .beginCoords
  | "cancel_label" => some (.rawValue "--cancel-label")
  | "cancel" => some (.rawValue "--cancel-label")
  | "clear" => some (.flag "--clear")
  | "colors" => some (.flag "--colors")
  | "column_separator" => some (.rawValue "--column-separator")
  | "cr_wrap" => some (.flag "--cr-wrap")
  | "create_rc" => some (.rawValue "--create-rc")
  | "date_format" => some (.rawValue "--date-format")
  | "defaultno" => some (.flag "--defaultno")
  | "default_button" => some (.rawValue "--default-button")
  | "default_item" => some (.rawValue "--default-item")
  | "exit_label" => some (.rawValue "--exit-label")
  | "extra_button" => some (.flag "--extra-button")
  | "extra_label" => some (.rawValue "--extra-label")
  | "help" => some (.flag "--help")
  | "help_button" => some (.flag "--help-button")
  | "help_label" => some (.rawValue "--help-label")
  | "hfile" => some (.rawValue "--hfile")
  | "hline" => some (.rawValue "--hline")
  | "ignore" => some (.flag "--ignore")
  | "insecure" => some (.flag "--insecure")
  | "item_help" => some (.flag "--item-help")
  | "keep_tite" => some (.flag "--keep-tite")
  | "keep_window" => some (.flag "--keep-window")
  | "max_input" => some (.strValue "--max-input")
  | "no_cancel" => some (.flag "--no-cancel")
  | "nocancel" => some (.flag "--nocancel")
  | "no_collapse" => some (.flag "--no-collapse")
  | "no_kill" => some (.flag "--no-kill")
  | "no_label" => some (.rawValue "--no-label")
  | "no_lines" => some (.flag "--no-lines")
  | "no_mouse" => some (.flag "--no-mouse")
  | "no_nl_expand" => some (.flag "--no-nl-expand")
  | "no_ok" => some (.flag "--no-ok")
  | "no_shadow" => some (.flag "--no-shadow")
  | "no_tags" => some (.flag "--no-tags")
  | "ok_label" => some (.rawValue "--ok-label")
  | "print_maxsize" => some (.flag "--print-maxsize")
  | "print_size" => some (.flag "--print-size")
  | "print_version" => some (.flag "--print-version")
  | "scrollbar" => some (.flag "--scrollbar")
  | "separate_output" => some (.flag "--separate-output")
  | "separate_widget" => some (.rawValue "--separate-widget")
  | "shadow" => some (.flag "--shadow")
  | "size_err" => some (.flag "--size-err")
  | "sleep" => some (.strValue "--sleep")
  | "stderr" => some (.flag "--stderr")
  | "stdout" => some (.flag "--stdout")
  | "tab_correct" => some (.flag "--tab-correct")
  | "tab_len" => some (.strValue "--tab-len")
  | "time_format" => some (.rawValue "--time-format")
  | "timeout" => some (.strValue "--timeout")
  | "title" => some (.rawValue "--title")
  | "trace" => some (.rawValue "--trace")
  | "trim" => some (.flag "--trim")
  | "version" => some (.flag "--version")
  | "visit_items" => some (.flag "--visit-items")
  | "yes_label" => some (.rawValue "--yes-label")
  | _ => none

/-- Embedding of `_compute_common_args` (dialog.py lines 479-502).  The
mapping is iterated in insertion order (as a Python dict is); an option
name absent from `_common_args_syntax` raises `KeyError` at the
subscripting `_common_args_syntax[option]` before any later entry is
looked at. -/
def computeCommonArgs : List (String × OptVal) → Except PyError (List String)
  | [] => .ok []
  | (option, value) :: rest =>
    match commonArgsSyntax option with
    | none => .error (.keyError option)
    | some rule =>
      match computeCommonArgs rest with
      | .error e => .error e
      | .ok args => .ok (applyRule rule value ++ args)

/-- `d[k]` on the keyword mapping: first (unique, for a dict) matching
key. -/
def pyDictGet (d : List (String × OptVal)) (k : String) : Option OptVal :=
  match d with
  | [] => none
  | (k2, v) :: rest => if k2 = k then some v else pyDictGet rest k

/-- `d[k] = v` on the keyword mapping: replace the value at an existing
key in place, or append a new binding. -/
def pyDictSet (d : List (String × OptVal)) (k : String) (v : OptVal) :
    List (String × OptVal) :=
  match d with
  | [] => [(k, v)]
  | (k2, v2) :: rest =>
    if k2 = k then (k, v) :: rest else (k2, v2) :: pyDictSet rest k v

/-- The observable outcome of `_call_program` succeeding (dialog.py lines
894-1024): the full argument vector handed to `execve`.  A value of this
type exists only once the fork is reached, so an error raised earlier
(dash-escaping, common-option translation) happens before any process is
spawned.  The environment overlay and the pipe wiring carry no
information relevant to the claims and are omitted. -/
structure SpawnRecord where
  arglist : List String
  deriving DecidableEq

/-- Embedding of the argument-building part of `_call_program` with the
default `dash_escape="non-first"` policy: `cmdargs` goes through
`dash_escape_nf`, then the argument vector is
`[program] ++ persistent args (if requested) ++ translated common options
++ cmdargs`, and only then is the child forked. -/
def callProgram (prg : String) (persistentArgs : List String)
    (usePersistentArgs : Bool) (cmdargs : List String)
    (kwargs : List (String × OptVal)) : Except PyError SpawnRecord :=
  match dashEscapeNf cmdargs with
  | .error e => .error e
  | .ok escaped =>
    match computeCommonArgs kwargs with
    | .error e => .error e
    | .ok common =>
      .ok ⟨prg :: ((if usePersistentArgs then persistentArgs else []) ++
                   common ++ escaped)⟩

/-- The exit-status code mapping of a `Dialog` instance: the `DIALOG_OK`,
..., `DIALOG_ITEM_HELP` attributes set by `__init__` from
`_dialog_exit_status_vars` and overridable by the user. -/
structure DialogCodes where
  ok : Int
  cancel : Int
  esc : Int
  errorCode : Int
  extra : Int
  help : Int
  itemHelp : Int
  deriving DecidableEq

/-- `_dialog_exit_status_vars` (dialog.py lines 544-550). -/
def dialogExitStatusVars : List (String × Int) :=
  [("OK", 0), ("CANCEL", 1), ("ESC", 2), ("ERROR", 3), ("EXTRA", 4),
   ("HELP", 5), ("ITEM_HELP", 6)]

/-- The default code mapping, as set by `Dialog.__init__` from
`_dialog_exit_status_vars`. -/
def defaultCodes : DialogCodes := ⟨0, 1, 2, 3, 4, 5, 6⟩

/-- The seven named codes of a mapping, in declaration order. -/
def DialogCodes.namedList (c : DialogCodes) : List Int :=
  [c.ok, c.cancel, c.esc, c.errorCode, c.extra, c.help, c.itemHelp]

/-- Outcome of `os.waitpid` on a child that has terminated: after a
blocking wait, `WIFEXITED` or `WIFSIGNALED` holds (the source's final
`else: raise PythonDialogBug` branch is unreachable then), so the status
is a normal exit code (`WEXITSTATUS`, a value in 0..255) or a signal
number (`WTERMSIG`). -/
inductive WaitStatus where
  | exited (code : Int)
  | signaled (signum : Nat)
  deriving DecidableEq

/-- Embedding of `_wait_for_program_termination` (dialog.py lines
1026-1123).  `childOutput` is the text that draining the result pipe
would yield; the source only reads the pipe on the non-raising path,
after the exit-code checks, and returns the drained text verbatim. -/
def waitForProgramTermination (codes : DialogCodes) (status : WaitStatus)
    (childOutput : String) : Except PyError (Int × String) :=
  match status with
  | .signaled signum => .error (.dialogTerminatedBySignal signum)
  | .exited exitCode =>
    if exitCode = codes.errorCode then .error (.dialogError exitCode)
    else if exitCode = 127 then .error .errorBeforeExec
    else if exitCode = 126 then .error .probablyPythonBug
    else .ok (exitCode, childOutput)

/-- The keyword-mapping mutation performed by `Dialog.checklist`
(dialog.py line 1333): `kwargs["separate_output"] = True` before the call
to `_perform`. -/
def checklistKwargs (kwargs : List (String × OptVal)) :
    List (String × OptVal) :=
  pyDictSet kwargs "separate_output" (.boolV true)

/-- The output decoding of `Dialog.checklist` (dialog.py lines 1339-1342):
`output.split('\n')[:-1]` when the output is non-empty, `[]` otherwise. -/
def checklistDecodeTags (output : String) : List String :=
  if output = "" then [] else (pySplit '\n' output).dropLast

/-- Modelled from the claim's words, for comparison with
`checklistDecodeTags`: "the text split on newlines with the trailing
empty element dropped" — the split list, minus its last element when that
element is the empty string. -/
def claimSplitDropTrailingEmpty (s : String) : List String :=
  let parts := pySplit '\n' s
  if parts.getLast? = some "" then parts.dropLast else parts

/-- The `exit_info` component of `Dialog.inputmenu`'s result: the strings
`"accepted"` / `"renamed"`, or the exit code passed through. -/
inductive InputmenuExitInfo where
  | accepted
  | renamed
  | exitCode (code : Int)
  deriving DecidableEq

/-- The result decoding of `Dialog.inputmenu` (dialog.py lines 1885-1897),
applied to the `(code, output)` pair returned by `_perform`:
`DIALOG_OK` accepts the whole output as the tag; `DIALOG_EXTRA` demands
the `"RENAMED "` marker (else `PythonDialogBug`) and splits the output on
at most two spaces, `t[1]` being the tag and `t[2]` the new item text
(an `IndexError` if the second space is missing); any other code is
passed through with `(None, None)`. -/
def inputmenuDecode (codes : DialogCodes) (code : Int) (output : String) :
    Except PyError (InputmenuExitInfo × Option String × Option String) :=
  if code = codes.ok then .ok (.accepted, some output, none)
  else if code = codes.extra then
    if pyStartsWith "RENAMED " output = false then .error .pythonDialogBug
    else
      match pySplitLimit ' ' 2 output with
      | _ :: tag :: newText :: _ => .ok (.renamed, some tag, some newText)
      | _ => .error .indexError
  else .ok (.exitCode code, none, none)

/-- The `self._gauge_process` record created by `gauge_start`
(dialog.py lines 1665-1669): the child pid, the writable stream to the
child's stdin (modelled by its open/closed flag together with the bytes
written to it so far), and the retained result-pipe read end (carried
outside the state, as the drained text, when `gauge_stop` runs). -/
structure GaugeProcess where
  pid : Nat
  stdinOpen : Bool
  written : String
  deriving DecidableEq

/-- The gauge-related state of a `Dialog` instance: `none` models the
`_gauge_process` attribute not being set (it is only ever created by
`gauge_start`; accessing it before that raises `AttributeError`). -/
structure GaugeState where
  gaugeProcess : Option GaugeProcess
  deriving DecidableEq

/-- Embedding of `Dialog.gauge_start` (dialog.py lines 1613-1669): spawn
the child with its stdin wired to a fresh pipe and unconditionally
overwrite `self._gauge_process` with a new record (the source performs no
check that a session is already running).  The spawned pid stands for the
`_call_program` result; no bytes have been written yet. -/
def gaugeStart (st : GaugeState) (pid : Nat) : GaugeState :=
  { st with gaugeProcess := some ⟨pid, true, ""⟩ }

/-- Embedding of `Dialog.gauge_update` (dialog.py lines 1671-1708),
statement by statement: first the `isinstance(percent, int)` check
(raising `BadPythonDialogUsage` before anything is written), then the
construction of `gauge_data`, then the attribute access
`self._gauge_process` (an `AttributeError` if `gauge_start` never ran),
then `write` + `flush` (a `ValueError` if the stream was closed by
`gauge_stop`).  The result pairs the raised exception, if any, with the
state at the moment of the raise. -/
def gaugeUpdate (st : GaugeState) (percent : PyVal) (text : String)
    (updateText : Bool) : Option PyError × GaugeState :=
  if pyIsInt percent = false then (some .badPythonDialogUsage, st)
  else
    let gaugeData :=
      if updateText then
        "XXX\n" ++ pyStrOfVal percent ++ "\n" ++ text ++ "\nXXX\n"
      else pyStrOfVal percent ++ "\n"
    match st.gaugeProcess with
    | none => (some (.attributeError "_gauge_process"), st)
    | some p =>
      if p.stdinOpen then
        let p2 : GaugeProcess := { p with written := p.written ++ gaugeData }
        (none, { st with gaugeProcess := some p2 })
      else (some .valueError, st)

/-- Embedding of `Dialog.gauge_stop` (dialog.py lines 1716-1742): access
`self._gauge_process` (an `AttributeError` if `gauge_start` never ran),
close the stdin pipe, run `_wait_for_program_termination` on the retained
pid and result pipe, and return component `[0]` of its result — the
child's exit code. -/
def gaugeStop (codes : DialogCodes) (st : GaugeState) (status : WaitStatus)
    (childOutput : String) : Option PyError × GaugeState × Option Int :=
  match st.gaugeProcess with
  | none => (some (.attributeError "_gauge_process"), st, none)
  | some p =>
    let p2 : GaugeProcess := { p with stdinOpen := false }
    let closed : GaugeState := { st with gaugeProcess := some p2 }
    match waitForProgramTermination codes status childOutput with
    | .error e => (some e, closed, none)
    | .ok (exitCode, _) => (none, closed, some exitCode)

/-- The bytes written so far on the gauge stdin pipe. -/
def gaugeBytes (st : GaugeState) : String :=
  match st.gaugeProcess with
  | none => ""
  | some p => p.written

/-! ## Helper lemmas -/

theorem chSplit_ne_nil (sep : Char) (l : List Char) : chSplit sep l ≠ [] := by
  induction l with
  | nil => simp [chSplit]
  | cons c rest ih =>
    rw [chSplit]
    by_cases hc : c = sep
    · simp [hc]
    · rw [if_neg hc]
      cases h : chSplit sep rest <;> simp

theorem chSplit_append_sep (sep : Char) (l : List Char) :
    chSplit sep (l ++ [sep]) = chSplit sep l ++ [[]] := by
  induction l with
  | nil => simp [chSplit]
  | cons c rest ih =>
    rw [List.cons_append, chSplit, chSplit]
    by_cases hc : c = sep
    · rw [if_pos hc, if_pos hc, ih, List.cons_append]
    · rw [if_neg hc, if_neg hc, ih]
      cases h : chSplit sep rest with
      | nil => exact absurd h (chSplit_ne_nil sep rest)
      | cons p ps => simp [h]

theorem chSplitLimit_sepFree (sep : Char) (t rest : List Char) (n : Nat)
    (h : sep ∉ t) :
    chSplitLimit sep (n + 1) (t ++ sep :: rest) =
      t :: chSplitLimit sep n rest := by
  induction t with
  | nil => simp [chSplitLimit]
  | cons c ts ih =>
    have hc : ¬(c = sep) := fun he => h (he ▸ List.mem_cons_self c ts)
    have hts : sep ∉ ts := fun hm => h (List.mem_cons_of_mem c hm)
    rw [List.cons_append, chSplitLimit, if_neg hc, ih hts]

theorem chStartsWith_append (p r : List Char) :
    chStartsWith p (p ++ r) = true := by
  induction p with
  | nil => rfl
  | cons a as ih => simpa [chStartsWith] using ih

theorem pyDictGet_pyDictSet (d : List (String × OptVal)) (k : String)
    (v : OptVal) : pyDictGet (pyDictSet d k v) k = some v := by
  induction d with
  | nil => simp [pyDictSet, pyDictGet]
  | cons p rest ih =>
    obtain ⟨k2, v2⟩ := p
    by_cases h : k2 = k
    · simp [pyDictSet, pyDictGet, h]
    · simp [pyDictSet, pyDictGet, h, ih]

theorem checklistDecodeTags_eq_dropLast (output : String) :
    checklistDecodeTags output = (pySplit '\n' output).dropLast := by
  by_cases h : output = ""
  · subst h; rfl
  · simp [checklistDecodeTags, h]

theorem computeCommonArgs_firstUnknown (kwargs : List (String × OptVal))
    (hex : ∃ p ∈ kwargs, commonArgsSyntax p.1 = none) :
    ∃ bad v, commonArgsSyntax bad = none ∧ (bad, v) ∈ kwargs ∧
      computeCommonArgs kwargs = .error (.keyError bad) := by
  induction kwargs with
  | nil => obtain ⟨p, hp, _⟩ := hex; cases hp
  | cons hd tl ih =>
    obtain ⟨k, v⟩ := hd
    cases hk : commonArgsSyntax k with
    | none =>
      exact ⟨k, v, hk, List.mem_cons_self _ _,
             by simp [computeCommonArgs, hk]⟩
    | some rule =>
      obtain ⟨p, hp, hnone⟩ := hex
      have htl : ∃ q ∈ tl, commonArgsSyntax q.1 = none := by
        rcases List.mem_cons.mp hp with h | hmem
        · exact absurd hnone (by simp [h, hk])
        · exact ⟨p, hmem, hnone⟩
      obtain ⟨bad, w, hbad, hmem, hcomp⟩ := ih htl
      exact ⟨bad, w, hbad, List.mem_cons_of_mem _ hmem,
             by simp [computeCommonArgs, hk, hcomp]⟩

/-! ## Claim C10 -/

/-- C10: `_dash_escape_nf` raises `PythonDialogBug` on an empty sequence
(and in particular does not return an empty list); on a non-empty
sequence it returns a new list with the first element unchanged followed
by the escape-all transform of the remaining elements, where every
element starting with `--` is preceded by an inserted `--` token.  (The
input is never mutated: the embedding is a pure function of it.) -/
theorem dashEscapeNfContract (a : String) (rest : List String) :
    dashEscapeNf [] = .error .pythonDialogBug ∧
    (∀ res : List String, dashEscapeNf [] ≠ .ok res) ∧
    dashEscapeNf (a :: rest) = .ok (a :: dashEscape rest) ∧
    dashEscape rest =
      rest.flatMap
        (fun x => if pyStartsWith "--" x then ["--", x] else [x]) := by
  refine ⟨rfl, fun res => by simp [dashEscapeNf], rfl, ?_⟩
  induction rest with
  | nil => rfl
  | cons x xs ih => simp [dashEscape, ih]

/-- C10 witness: the contract evaluated on a concrete escapable list. -/
theorem dashEscapeNfContract_witness :
    dashEscapeNf ["--msgbox", "--text", "plain"] =
      .ok ["--msgbox", "--", "--text", "plain"] := by
  have h := (dashEscapeNfContract "--msgbox" ["--text", "plain"]).2.2.1
  rw [h]; decide

/-! ## Claim C9 -/

/-- C9: for every `percent` value that is not a Python integer,
`gauge_update` raises `BadPythonDialogUsage` before anything is written
to the gauge stdin pipe: the returned state — including the byte stream
already sent to the backend — is exactly the input state. -/
theorem gaugeUpdateNonIntAtomicFailure (st : GaugeState) (p : PyVal)
    (text : String) (b : Bool) (h : pyIsInt p = false) :
    gaugeUpdate st p text b = (some .badPythonDialogUsage, st) ∧
    PyError.isBadUsage .badPythonDialogUsage = true := by
  exact ⟨by simp [gaugeUpdate, h], rfl⟩

/-- C9 witness: a string percent on a running session with bytes already
sent leaves the stream untouched. -/
theorem gaugeUpdateNonIntAtomicFailure_witness :
    gaugeUpdate ⟨some ⟨3, true, "10\n"⟩⟩ (.pyStr "50") "" false =
      (some .badPythonDialogUsage, ⟨some ⟨3, true, "10\n"⟩⟩) ∧
    PyError.isBadUsage .badPythonDialogUsage = true :=
  gaugeUpdateNonIntAtomicFailure ⟨some ⟨3, true, "10\n"⟩⟩ (.pyStr "50") ""
    false rfl

/-! ## Claim C8 -/

/-- C8 counterexample: `gauge_start` on an already-running session does
not raise a usage error — it silently installs a fresh session record —
and `gauge_update` on the idle (never-started) state raises
`AttributeError`, which is not the library's usage error. -/
theorem gaugeMisuseNotUsageError :
    gaugeStart ⟨some ⟨1, true, "5\n"⟩⟩ 2 = ⟨some ⟨2, true, ""⟩⟩ ∧
    gaugeUpdate ⟨none⟩ (.pyInt 10) "" false =
      (some (.attributeError "_gauge_process"), ⟨none⟩) ∧
    PyError.isBadUsage (.attributeError "_gauge_process") = false := by
  exact ⟨rfl, rfl, rfl⟩

/-- C8 (amended): calling `gauge_update` or `gauge_stop` before any
session was ever started fails with a Python `AttributeError` on the
unset `_gauge_process` attribute — an exception outside the library's
hierarchy, not a usage error — while calling `gauge_start` with a session
already running raises nothing at all and silently replaces the session
record. -/
theorem gaugeMisuseActualBehavior (st : GaugeState) (pid : Nat) (n : Int)
    (text : String) (b : Bool) (codes : DialogCodes) (status : WaitStatus)
    (childOut : String) :
    gaugeUpdate ⟨none⟩ (.pyInt n) text b =
      (some (.attributeError "_gauge_process"), ⟨none⟩) ∧
    gaugeStop codes ⟨none⟩ status childOut =
      (some (.attributeError "_gauge_process"), ⟨none⟩, none) ∧
    gaugeStart st pid = ⟨some ⟨pid, true, ""⟩⟩ ∧
    PyError.isBadUsage (.attributeError "_gauge_process") = false ∧
    PyError.inHierarchy (.attributeError "_gauge_process") = false := by
  exact ⟨rfl, rfl, rfl, rfl, rfl⟩

/-- C8 witness: the amended behaviour at concrete inputs. -/
theorem gaugeMisuseActualBehavior_witness :
    gaugeUpdate ⟨none⟩ (.pyInt 5) "t" true =
      (some (.attributeError "_gauge_process"), ⟨none⟩) ∧
    gaugeStop defaultCodes ⟨none⟩ (.exited 0) "" =
      (some (.attributeError "_gauge_process"), ⟨none⟩, none) ∧
    gaugeStart ⟨some ⟨9, true, "w"⟩⟩ 4 = ⟨some ⟨4, true, ""⟩⟩ ∧
    PyError.isBadUsage (.attributeError "_gauge_process") = false ∧
    PyError.inHierarchy (.attributeError "_gauge_process") = false :=
  gaugeMisuseActualBehavior ⟨some ⟨9, true, "w"⟩⟩ 4 5 "t" true defaultCodes
    (.exited 0) ""

/-! ## Claim C3 -/

/-- C3 counterexample: the string `"on\n"` — which is not a case
variation of `"on"` or `"off"`, and is neither a boolean nor an integer —
does not raise a usage error: `_to_onoff` returns `"on"` for it, because
the regex `on$` is matched with `re.match` and `$` also matches just
before a string-final newline. -/
theorem toOnOffAcceptsOnWithTrailingNewline :
    toOnOff (.pyStr "on\n") = .ok "on" ∧
    pyLower "on\n" ≠ "on" ∧ pyLower "on\n" ≠ "off" ∧
    "on\n" ≠ "on" ∧ "on\n" ≠ "ON" ∧ "on\n" ≠ "On" ∧ "on\n" ≠ "oN" := by
  decide

/-- C3 (amended): `_to_onoff` returns `"on"` exactly for `True`, the
non-zero integers, and the strings whose ASCII lowercase is `"on"` or
`"on"` followed by one trailing newline (the trailing newline being
admitted by the `$` anchor of the `re.match`-anchored regex); it returns
`"off"` exactly for `False`, the integer `0`, and the strings whose ASCII
lowercase is `"off"` or `"off\n"`; every other input raises
`BadPythonDialogUsage`. -/
theorem toOnOffCharacterization (v : PyVal) :
    (toOnOff v = .ok "on" ↔
      v = PyVal.pyBool true ∨ (∃ n : Int, n ≠ 0 ∧ v = PyVal.pyInt n) ∨
      (∃ s : String, v = PyVal.pyStr s ∧
        (pyLower s = "on" ∨ pyLower s = "on\n"))) ∧
    (toOnOff v = .ok "off" ↔
      v = PyVal.pyBool false ∨ v = PyVal.pyInt 0 ∨
      (∃ s : String, v = PyVal.pyStr s ∧
        (pyLower s = "off" ∨ pyLower s = "off\n"))) ∧
    (toOnOff v ≠ .ok "on" → toOnOff v ≠ .ok "off" →
      toOnOff v = .error .badPythonDialogUsage) := by
  cases v with
  | pyBool b =>
    cases b
    · refine ⟨by simp [toOnOff], by simp [toOnOff], fun h1 h2 => ?_⟩
      simp [toOnOff] at h2
    · refine ⟨by simp [toOnOff], by simp [toOnOff], fun h1 h2 => ?_⟩
      simp [toOnOff] at h1
  | pyInt n =>
    by_cases hn : n = 0
    · subst hn
      refine ⟨by simp [toOnOff], by simp [toOnOff], fun h1 h2 => ?_⟩
      simp [toOnOff] at h2
    · refine ⟨by simp [toOnOff, hn], by simp [toOnOff, hn], fun h1 h2 => ?_⟩
      simp [toOnOff, hn] at h1
  | pyStr s =>
    refine ⟨?_, ?_, ?_⟩
    · simp only [toOnOff, reMatchAnchoredDollarCI]
      by_cases h1 : pyLower s = "on"
      · simp [h1]
      · by_cases h2 : pyLower s = "on\n"
        · simp [h1, h2]
        · by_cases h3 : pyLower s = "off"
          · simp [h1, h2, h3]
          · by_cases h4 : pyLower s = "off\n"
            · simp [h1, h2, h3, h4]
            · simp [h1, h2, h3, h4]
    · simp only [toOnOff, reMatchAnchoredDollarCI]
      by_cases h1 : pyLower s = "on"
      · simp [h1]
      · by_cases h2 : pyLower s = "on\n"
        · simp [h1, h2]
        · by_cases h3 : pyLower s = "off"
          · simp [h1, h2, h3]
          · by_cases h4 : pyLower s = "off\n"
            · simp [h1, h2, h3, h4]
            · simp [h1, h2, h3, h4]
    · intro hon hoff
      simp only [toOnOff, reMatchAnchoredDollarCI] at hon hoff ⊢
      by_cases h1 : pyLower s = "on"
      · exact absurd (by simp [h1]) hon
      · by_cases h2 : pyLower s = "on\n"
        · exact absurd (by simp [h1, h2]) hon
        · by_cases h3 : pyLower s = "off"
          · exact absurd (by simp [h1, h2, h3]) hoff
          · by_cases h4 : pyLower s = "off\n"
            · exact absurd (by simp [h1, h2, h3, h4]) hoff
            · simp [h1, h2, h3, h4]
  | pyFloat =>
    refine ⟨by simp [toOnOff], by simp [toOnOff], fun _ _ => rfl⟩
  | pyNone =>
    refine ⟨by simp [toOnOff], by simp [toOnOff], fun _ _ => rfl⟩

/-- C3 witness: the characterization applied to a non-boolean-like
input, discharging the two hypotheses of its error clause. -/
theorem toOnOffCharacterization_witness :
    toOnOff (.pyStr "maybe") = .error .badPythonDialogUsage :=
  (toOnOffCharacterization (.pyStr "maybe")).2.2 (by decide) (by decide)

/-! ## Claim C1 -/

/-- C1 counterexample: with the default code mapping, a child exiting
normally with code 42 — neither one of the seven named codes nor one of
the reserved sentinels 126/127 — is returned to the caller as-is by
`_wait_for_program_termination`, not surfaced as a protocol violation. -/
theorem waitReturnsUnknownCode42 :
    waitForProgramTermination defaultCodes (.exited 42) "out" =
      .ok (42, "out") ∧
    (42 : Int) ∉ defaultCodes.namedList ∧
    (42 : Int) ≠ 126 ∧ (42 : Int) ≠ 127 ∧
    defaultCodes.namedList = dialogExitStatusVars.map Prod.snd := by
  decide

/-- C1 (amended): the termination handler returns `(code, text)` exactly
when the child exited normally with a code different from 126, 127 and
the configured ERROR code, the text being the drained result-channel
output; every such code — including values outside the seven named codes
— is silently passed through to the caller, and the codes 126, 127 and
ERROR are never returned (they raise). -/
theorem waitOkCharacterization (codes : DialogCodes) (status : WaitStatus)
    (output : String) (code : Int) (txt : String) :
    waitForProgramTermination codes status output = .ok (code, txt) ↔
      (status = .exited code ∧ txt = output ∧
       ¬(code = codes.errorCode ∨ code = 127 ∨ code = 126)) := by
  cases status with
  | signaled s => simp [waitForProgramTermination]
  | exited c =>
    simp only [waitForProgramTermination]
    by_cases h1 : c = codes.errorCode
    · simp only [if_pos h1]
      constructor
      · intro h; cases h
      · rintro ⟨hc, -, hne⟩
        obtain rfl : c = code := by injection hc
        exact absurd (Or.inl h1) hne
    · rw [if_neg h1]
      by_cases h2 : c = (127 : Int)
      · simp only [if_pos h2]
        constructor
        · intro h; cases h
        · rintro ⟨hc, -, hne⟩
          obtain rfl : c = code := by injection hc
          exact absurd (Or.inr (Or.inl h2)) hne
      · rw [if_neg h2]
        by_cases h3 : c = (126 : Int)
        · simp only [if_pos h3]
          constructor
          · intro h; cases h
          · rintro ⟨hc, -, hne⟩
            obtain rfl : c = code := by injection hc
            exact absurd (Or.inr (Or.inr h3)) hne
        · rw [if_neg h3]
          constructor
          · intro h
            injection h with h
            injection h with hfst hsnd
            subst hfst
            exact ⟨rfl, hsnd.symm, by tauto⟩
          · rintro ⟨hc, rfl, -⟩
            injection hc with hc
            rw [hc]

/-- C1 witness: the characterization instantiated at an exit code
outside the named set, in the forward direction. -/
theorem waitOkCharacterization_witness :
    (waitForProgramTermination defaultCodes (.exited 9) "txt" =
      .ok (9, "txt")) ∧ (9 : Int) ∉ defaultCodes.namedList :=
  ⟨(waitOkCharacterization defaultCodes (.exited 9) "txt" 9 "txt").mpr
    ⟨rfl, rfl, by decide⟩, by decide⟩

/-! ## Claim C2 -/

/-- C2: `_wait_for_program_termination` raises if and only if the child
was terminated by a signal, or exited normally with 127, 126, or the
configured ERROR code; a signal raises the protocol error carrying that
exact signal number; every other normal exit code — in particular the
configured OK code when distinct from those three — never raises and is
returned as exactly the pair of the code and the unmodified captured
result-channel text. -/
theorem waitRaisesIffSignalOrReservedOrError (codes : DialogCodes)
    (status : WaitStatus) (output : String) :
    ((∃ e, waitForProgramTermination codes status output = .error e) ↔
      ((∃ s, status = .signaled s) ∨
       (∃ c, status = .exited c ∧
          (c = 127 ∨ c = 126 ∨ c = codes.errorCode)))) ∧
    (∀ s, status = .signaled s →
      waitForProgramTermination codes status output =
        .error (.dialogTerminatedBySignal s)) ∧
    (∀ c, status = .exited c →
      ¬(c = 127 ∨ c = 126 ∨ c = codes.errorCode) →
      waitForProgramTermination codes status output = .ok (c, output)) := by
  refine ⟨?_, ?_, ?_⟩
  · cases status with
    | signaled s => simp [waitForProgramTermination]
    | exited c =>
      constructor
      · intro he
        obtain ⟨e, he⟩ := he
        refine Or.inr ⟨c, rfl, ?_⟩
        by_contra hno
        push_neg at hno
        obtain ⟨h1, h2, h3⟩ := hno
        rw [waitForProgramTermination] at he
        rw [if_neg h3, if_neg h1, if_neg h2] at he
        cases he
      · rintro (⟨s, hs⟩ | ⟨c2, hc2, hor⟩)
        · cases hs
        · obtain rfl : c = c2 := by injection hc2
          rcases hor with h | h | h
          · subst h
            by_cases he : (127 : Int) = codes.errorCode
            · refine ⟨.dialogError 127, ?_⟩
              simp only [waitForProgramTermination]
              rw [if_pos he]
            · refine ⟨.errorBeforeExec, ?_⟩
              simp only [waitForProgramTermination]
              rw [if_neg he]
              simp
          · subst h
            by_cases he : (126 : Int) = codes.errorCode
            · refine ⟨.dialogError 126, ?_⟩
              simp only [waitForProgramTermination]
              rw [if_pos he]
            · refine ⟨.probablyPythonBug, ?_⟩
              simp only [waitForProgramTermination]
              rw [if_neg he]
              simp
          · refine ⟨.dialogError c, ?_⟩
            simp only [waitForProgramTermination]
            rw [if_pos h]
  · rintro s rfl; rfl
  · rintro c rfl hno
    push_neg at hno
    obtain ⟨h1, h2, h3⟩ := hno
    simp [waitForProgramTermination, h1, h2, h3]

/-- C2 witness: a child exiting with the default OK code returns the
exact pair without raising. -/
theorem waitRaisesIffSignalOrReservedOrError_witness :
    waitForProgramTermination defaultCodes (.exited 0) "hello" =
      .ok (0, "hello") :=
  (waitRaisesIffSignalOrReservedOrError defaultCodes (.exited 0)
    "hello").2.2 0 rfl (by decide)

/-! ## Claim C4 -/

/-- C4 counterexample: a mapping containing the unknown option name
`"frobnicate"` makes `_compute_common_args` raise `KeyError` — a Python
builtin outside the library's exception hierarchy — not the library's
usage error. -/
theorem unknownOptionKeyErrorNotUsageError :
    computeCommonArgs [("frobnicate", .boolV true)] =
      .error (.keyError "frobnicate") ∧
    PyError.isBadUsage (.keyError "frobnicate") = false ∧
    PyError.inHierarchy (.keyError "frobnicate") = false := by
  decide

/-- C4 (amended): for every configuration mapping containing an option
name absent from `_common_args_syntax`, the invocation fails immediately
and synchronously — the error propagates out of the argument-building
phase, so no spawn record is ever produced — but with a `KeyError` from
the rule-table lookup, an exception of a different kind than the
library's usage error. -/
theorem unknownOptionFailsBeforeSpawn (prg : String)
    (persistentArgs : List String) (useP : Bool) (c0 : String)
    (cmdRest : List String) (kwargs : List (String × OptVal))
    (name : String) (v : OptVal) (hmem : (name, v) ∈ kwargs)
    (hunknown : commonArgsSyntax name = none) :
    ∃ bad, commonArgsSyntax bad = none ∧
      callProgram prg persistentArgs useP (c0 :: cmdRest) kwargs =
        .error (.keyError bad) ∧
      PyError.isBadUsage (.keyError bad) = false ∧
      PyError.inHierarchy (.keyError bad) = false := by
  obtain ⟨bad, w, hbad, -, hcomp⟩ :=
    computeCommonArgs_firstUnknown kwargs ⟨(name, v), hmem, hunknown⟩
  exact ⟨bad, hbad, by simp [callProgram, dashEscapeNf, hcomp], rfl, rfl⟩

/-- C4 witness: a concrete call with one known and one unknown common
option fails with the `KeyError` before any spawn. -/
theorem unknownOptionFailsBeforeSpawn_witness :
    ∃ bad, commonArgsSyntax bad = none ∧
      callProgram "dialog" [] true ["--yesno", "hi", "10", "30"]
        [("title", .strV "T"), ("frobnicate", .boolV true)] =
        .error (.keyError bad) ∧
      PyError.isBadUsage (.keyError bad) = false ∧
      PyError.inHierarchy (.keyError bad) = false :=
  unknownOptionFailsBeforeSpawn "dialog" [] true "--yesno"
    ["hi", "10", "30"] [("title", .strV "T"), ("frobnicate", .boolV true)]
    "frobnicate" (.boolV true) (by simp) rfl

/-! ## Claim C5 -/

/-- C5 counterexample: for captured text not ending in a newline the
decoder does not merely drop a trailing empty element — it drops the last
field outright: `"a"` decodes to `[]` while the claim's rule ("split on
newlines, drop the trailing empty element") yields `["a"]`. -/
theorem checklistDropsFinalFieldWithoutTrailingNewline :
    checklistDecodeTags "a" = [] ∧
    claimSplitDropTrailingEmpty "a" = ["a"] ∧
    pySplit '\n' "a" = ["a"] := by
  decide

/-- C5 (amended): `checklist` always forces `separate_output = True` into
the keyword mapping of the underlying call (whose rule emits the
`--separate-output` token), and for every captured text that is empty or
ends in a newline — the shape `--separate-output` guarantees — the
returned tag list is the text split on newlines with the trailing empty
element dropped; on non-empty text not ending in a newline the
implementation instead drops the final field (it unconditionally removes
the last split element).  In particular `"a\nb\n"` decodes to
`["a", "b"]` and `""` decodes to `[]`. -/
theorem checklistForcedSeparateOutputDecode
    (kwargs : List (String × OptVal)) (output : String)
    (h : output = "" ∨ ∃ t : String, output = t ++ "\n") :
    pyDictGet (checklistKwargs kwargs) "separate_output" =
      some (OptVal.boolV true) ∧
    commonArgsSyntax "separate_output" =
      some (ArgRule.flag "--separate-output") ∧
    applyRule (ArgRule.flag "--separate-output") (OptVal.boolV true) =
      ["--separate-output"] ∧
    checklistDecodeTags output = claimSplitDropTrailingEmpty output ∧
    checklistDecodeTags "a\nb\n" = ["a", "b"] ∧
    checklistDecodeTags "" = [] := by
  refine ⟨pyDictGet_pyDictSet kwargs _ _, rfl, rfl, ?_, by decide, rfl⟩
  rcases h with rfl | ⟨t, rfl⟩
  · rfl
  · have hd : (t ++ "\n").data = t.data ++ ['\n'] := by
      rw [String.data_append]
    have hsplit : pySplit '\n' (t ++ "\n") =
        (chSplit '\n' t.data).map String.mk ++ [""] := by
      rw [pySplit, hd, chSplit_append_sep]
      simp
    rw [checklistDecodeTags_eq_dropLast]
    simp only [claimSplitDropTrailingEmpty, hsplit]
    rw [if_pos (by simp)]

/-- C5 witness: the amended statement at a concrete keyword mapping and
the claim's own example text. -/
theorem checklistForcedSeparateOutputDecode_witness :
    pyDictGet (checklistKwargs [("title", .strV "T")]) "separate_output" =
      some (OptVal.boolV true) ∧
    commonArgsSyntax "separate_output" =
      some (ArgRule.flag "--separate-output") ∧
    applyRule (ArgRule.flag "--separate-output") (OptVal.boolV true) =
      ["--separate-output"] ∧
    checklistDecodeTags "a\nb\n" = claimSplitDropTrailingEmpty "a\nb\n" ∧
    checklistDecodeTags "a\nb\n" = ["a", "b"] ∧
    checklistDecodeTags "" = [] :=
  checklistForcedSeparateOutputDecode [("title", .strV "T")] "a\nb\n"
    (Or.inr ⟨"a\nb", by decide⟩)

/-! ## Claim C6 -/

/-- C6: `inputmenu` decoding under the configured EXTRA exit code: the
captured text must start with the literal marker `"RENAMED "` — a missing
marker raises the fatal `PythonDialogBug` — and the remainder is split in
two at the first remaining space, yielding the classification "renamed"
with the renamed tag and the new label; the claim's concrete example
decodes accordingly, and every other non-OK exit code yields the code
passed through with no tag and no label. -/
theorem inputmenuDecodeContract (codes : DialogCodes) (code : Int)
    (output tag label : String) (hok : code ≠ codes.ok) :
    (code = codes.extra → pyStartsWith "RENAMED " output = false →
      inputmenuDecode codes code output = .error .pythonDialogBug) ∧
    (code = codes.extra → output = "RENAMED " ++ tag ++ " " ++ label →
      ' ' ∉ tag.data →
      inputmenuDecode codes code output =
        .ok (.renamed, some tag, some label)) ∧
    inputmenuDecode defaultCodes 4 "RENAMED item_2 New Label Here" =
      .ok (.renamed, some "item_2", some "New Label Here") ∧
    (code ≠ codes.extra →
      inputmenuDecode codes code output =
        .ok (.exitCode code, none, none)) := by
  refine ⟨?_, ?_, by decide, ?_⟩
  · intro hex hsw
    subst hex
    simp [inputmenuDecode, hok, hsw]
  · intro hex houtput hnosp
    subst houtput
    subst hex
    have e1 : ("RENAMED " : String).data =
        ("RENAMED" : String).data ++ [' '] := by decide
    have e2 : (" " : String).data = [' '] := by decide
    have hsw : pyStartsWith "RENAMED "
        ("RENAMED " ++ tag ++ " " ++ label) = true := by
      rw [pyStartsWith]
      have hdata : ("RENAMED " ++ tag ++ " " ++ label).data =
          ("RENAMED " : String).data ++
            (tag.data ++ ((" " : String).data ++ label.data)) := by
        simp [String.data_append, List.append_assoc]
      rw [hdata, chStartsWith_append]
    have hdata2 : ("RENAMED " ++ tag ++ " " ++ label).data =
        ("RENAMED" : String).data ++
          (' ' :: (tag.data ++ ' ' :: label.data)) := by
      simp [String.data_append, e1, e2, List.append_assoc]
    have hsplit : pySplitLimit ' ' 2 ("RENAMED " ++ tag ++ " " ++ label) =
        ["RENAMED", tag, label] := by
      rw [pySplitLimit, hdata2, (by rfl : (2 : Nat) = 1 + 1),
          chSplitLimit_sepFree ' ' ("RENAMED" : String).data
            (tag.data ++ ' ' :: label.data) 1 (by decide),
          (by rfl : (1 : Nat) = 0 + 1),
          chSplitLimit_sepFree ' ' tag.data label.data 0 hnosp]
      simp [chSplitLimit]
    simp [inputmenuDecode, hok, hsw, hsplit]
  · intro hex
    simp [inputmenuDecode, hok, hex]

/-- C6 witness: the renamed branch at concrete inputs, discharging all
its hypotheses. -/
theorem inputmenuDecodeContract_witness :
    inputmenuDecode defaultCodes 4 "RENAMED a b c" =
      .ok (.renamed, some "a", some "b c") :=
  (inputmenuDecodeContract defaultCodes 4 "RENAMED a b c" "a" "b c"
    (by decide)).2.1 rfl (by decide) (by decide)

/-! ## Claim C7 -/

/-- C7: the gauge wire format — a `start`, `update(p1)`,
`update(p2, text, with-text)`, `update(p3)`, `stop` sequence writes on
the gauge stdin pipe exactly the bare line for each plain update and the
four-line `XXX`-framed block for the text update, concatenated in call
order, and `stop` (after closing the write end) returns the child's final
exit code when the child exits with a non-raising code. -/
theorem gaugeRoundTripWireFormat (st0 : GaugeState) (pid : Nat)
    (p1 p2 p3 : Int) (text : String) (codes : DialogCodes) (code : Int)
    (childOut : String)
    (h : ¬(code = codes.errorCode ∨ code = 127 ∨ code = 126)) :
    ∃ s1 s2 s3 : GaugeState,
      gaugeUpdate (gaugeStart st0 pid) (.pyInt p1) "" false = (none, s1) ∧
      gaugeUpdate s1 (.pyInt p2) text true = (none, s2) ∧
      gaugeUpdate s2 (.pyInt p3) "" false = (none, s3) ∧
      gaugeBytes s3 =
        (toString p1 ++ "\n") ++
          ("XXX\n" ++ toString p2 ++ "\n" ++ text ++ "\nXXX\n") ++
          (toString p3 ++ "\n") ∧
      gaugeStop codes s3 (.exited code) childOut =
        (none, ⟨some ⟨pid, false, gaugeBytes s3⟩⟩, some code) := by
  push_neg at h
  obtain ⟨h1, h2, h3⟩ := h
  refine ⟨_, _, _, rfl, rfl, rfl, ?_, ?_⟩
  · simp [gaugeBytes, pyStrOfVal, String.empty_append, String.append_assoc]
  · simp [gaugeStop, waitForProgramTermination, gaugeBytes, h1, h2, h3]

/-- C7 witness: the round trip at concrete percentages, text and exit
code. -/
theorem gaugeRoundTripWireFormat_witness :
    ∃ s1 s2 s3 : GaugeState,
      gaugeUpdate (gaugeStart ⟨none⟩ 7) (.pyInt 10) "" false =
        (none, s1) ∧
      gaugeUpdate s1 (.pyInt 50) "halfway" true = (none, s2) ∧
      gaugeUpdate s2 (.pyInt 100) "" false = (none, s3) ∧
      gaugeBytes s3 =
        (toString (10 : Int) ++ "\n") ++
          ("XXX\n" ++ toString (50 : Int) ++ "\n" ++ "halfway" ++
            "\nXXX\n") ++
          (toString (100 : Int) ++ "\n") ∧
      gaugeStop defaultCodes s3 (.exited 0) "" =
        (none, ⟨some ⟨7, false, gaugeBytes s3⟩⟩, some 0) :=
  gaugeRoundTripWireFormat ⟨none⟩ 7 10 50 100 "halfway" defaultCodes 0 ""
    (by decide)

end Pythondialog
